import Mathlib

/-!
Shallow embedding of `src/nlpy/model/nlp.py` (class `NLPModel`).

Floats are modelled as rationals (`ℚ`); the file only manipulates the
sentinel `1e20`, its negation, `0.0`, `1.0`, `1e-6` and caller-supplied
bound values, compared with `<`, `<=` and `==`, so the embedding is exact.
Python lists / numpy 1-d arrays become `List ℚ`; `self.Lcon[i]` becomes
`Lcon.getD i 0` (all claims only touch indices below the vector length).
The code is Python 2 (`range` returns a list; `None` compares below every
number), and the embedding follows Python 2 semantics.
-/

namespace Nlpy

/-- `self.Infinity = 1e+20` (nlp.py line 47). -/
def Infinity : ℚ := 10 ^ 20

/-- `self.negInfinity = - self.Infinity` (nlp.py line 48). -/
def negInfinity : ℚ := -Infinity

/-- The five bound-type categories a constraint or variable index can fall
into during the classification loops of `NLPModel.__init__`. -/
inductive BoundClass where
  | equal
  | range
  | lower
  | upper
  | free
deriving DecidableEq

/-- One iteration of the classification loops of `NLPModel.__init__`
(nlp.py lines 104-114 for constraints, 130-140 for variables): the nested
`if self.Lcon[i] > self.negInfinity and self.Ucon[i] < self.Infinity: ...`
chain, applied to the pair `(l, u)` of lower and upper bound at index `i`. -/
def classify (l u : ℚ) : BoundClass :=
  if negInfinity < l ∧ u < Infinity then
    if l = u then BoundClass.equal else BoundClass.range
  else if negInfinity < l then BoundClass.lower
  else if u < Infinity then BoundClass.upper
  else BoundClass.free

/-- The list of indices `i in range(k)` that the classification loop appends
to the list of category `c`: the loop walks `i = 0, 1, ..., k-1` in order and
appends `i` to exactly the list selected by `classify`, so each category's
list is the ascending filter of `range k` by its `classify` outcome. -/
def classIndices (k : ℕ) (L U : List ℚ) (c : BoundClass) : List ℕ :=
  (List.range k).filter (fun i => decide (classify (L.getD i 0) (U.getD i 0) = c))

/-- The keyword arguments `__init__` consults (`kwargs`): each of
`x0, pi0, Lvar, Uvar, Lcon, Ucon` may be supplied or absent. -/
structure Options where
  x0 : Option (List ℚ)
  pi0 : Option (List ℚ)
  Lvar : Option (List ℚ)
  Uvar : Option (List ℚ)
  Lcon : Option (List ℚ)
  Ucon : Option (List ℚ)
deriving DecidableEq

/-- No keyword arguments supplied. -/
def noOpts : Options := ⟨none, none, none, none, none, none⟩

/-- The attributes an `NLPModel` instance carries after `__init__` returns
(nlp.py lines 38-161), with the source's attribute names. -/
structure NLPModel where
  n : ℕ
  m : ℕ
  name : String
  Infinity : ℚ
  negInfinity : ℚ
  zero : ℚ
  one : ℚ
  x0 : List ℚ
  pi0 : List ℚ
  Lvar : List ℚ
  Uvar : List ℚ
  Lcon : List ℚ
  Ucon : List ℚ
  lin : List ℕ
  nln : List ℕ
  net : List ℕ
  nlin : ℕ
  nnln : ℕ
  nnet : ℕ
  rangeC : List ℕ
  lowerC : List ℕ
  upperC : List ℕ
  equalC : List ℕ
  freeC : List ℕ
  nlowerC : ℕ
  nrangeC : ℕ
  nupperC : ℕ
  nequalC : ℕ
  nfreeC : ℕ
  rangeB : List ℕ
  lowerB : List ℕ
  upperB : List ℕ
  fixedB : List ℕ
  freeB : List ℕ
  nlowerB : ℕ
  nrangeB : ℕ
  nupperB : ℕ
  nfixedB : ℕ
  nfreeB : ℕ
  nbounds : ℤ
  stop_d : ℚ
  stop_c : ℚ
  stop_p : ℚ
  feval : ℕ
  geval : ℕ
  Heval : ℕ
  Hprod : ℕ
  ceval : ℕ
  Jeval : ℕ
  Jprod : ℕ

/-- `NLPModel.__init__(n, m, name, **kwargs)` (nlp.py lines 38-161):
defaults for missing keyword arguments (`numpy.zeros`, `±Infinity * ones`),
the `lin`/`nln`/`net` kind tags, the two classification loops, the derived
counts, `nbounds = n - nfreeB`, the `1e-6` stopping tolerances and the seven
zeroed evaluation counters. -/
def mkNLPModel (n m : ℕ) (name : String) (opts : Options) : NLPModel :=
  let x0 := opts.x0.getD (List.replicate n 0)
  let pi0 := opts.pi0.getD (List.replicate m 0)
  let Lvar := opts.Lvar.getD (List.replicate n negInfinity)
  let Uvar := opts.Uvar.getD (List.replicate n Infinity)
  let Lcon := opts.Lcon.getD (List.replicate m negInfinity)
  let Ucon := opts.Ucon.getD (List.replicate m Infinity)
  let lin : List ℕ := []
  let nln : List ℕ := List.range m
  let net : List ℕ := []
  let rangeC := classIndices m Lcon Ucon BoundClass.range
  let lowerC := classIndices m Lcon Ucon BoundClass.lower
  let upperC := classIndices m Lcon Ucon BoundClass.upper
  let equalC := classIndices m Lcon Ucon BoundClass.equal
  let freeC := classIndices m Lcon Ucon BoundClass.free
  let rangeB := classIndices n Lvar Uvar BoundClass.range
  let lowerB := classIndices n Lvar Uvar BoundClass.lower
  let upperB := classIndices n Lvar Uvar BoundClass.upper
  let fixedB := classIndices n Lvar Uvar BoundClass.equal
  let freeB := classIndices n Lvar Uvar BoundClass.free
  { n := n
    m := m
    name := name
    Infinity := Infinity
    negInfinity := negInfinity
    zero := 0
    one := 1
    x0 := x0
    pi0 := pi0
    Lvar := Lvar
    Uvar := Uvar
    Lcon := Lcon
    Ucon := Ucon
    lin := lin
    nln := nln
    net := net
    nlin := lin.length
    nnln := nln.length
    nnet := net.length
    rangeC := rangeC
    lowerC := lowerC
    upperC := upperC
    equalC := equalC
    freeC := freeC
    nlowerC := lowerC.length
    nrangeC := rangeC.length
    nupperC := upperC.length
    nequalC := equalC.length
    nfreeC := freeC.length
    rangeB := rangeB
    lowerB := lowerB
    upperB := upperB
    fixedB := fixedB
    freeB := freeB
    nlowerB := lowerB.length
    nrangeB := rangeB.length
    nupperB := upperB.length
    nfixedB := fixedB.length
    nfreeB := freeB.length
    nbounds := (n : ℤ) - freeB.length
    stop_d := 1 / 1000000
    stop_c := 1 / 1000000
    stop_p := 1 / 1000000
    feval := 0
    geval := 0
    Heval := 0
    Hprod := 0
    ceval := 0
    Jeval := 0
    Jprod := 0 }

/-- `NLPModel.ResetCounters` (nlp.py lines 163-171): zero the seven
evaluation counters, touch nothing else. -/
def ResetCounters (p : NLPModel) : NLPModel :=
  { p with
    feval := 0
    geval := 0
    Heval := 0
    Hprod := 0
    ceval := 0
    Jeval := 0
    Jprod := 0 }

/-- `NLPModel.OptimalityResiduals` (nlp.py lines 174-175): the base class
returns the undefined triple `(None, None, None)`. -/
def OptimalityResiduals (p : NLPModel) (x z : List ℚ) :
    Option ℚ × Option ℚ × Option ℚ :=
  (none, none, none)

/-- Python 2 evaluation of `r <= t` where `r` is a residual that may be
`None` and `t` is a float: CPython 2's default comparison places `None`
below every number, so `None <= t` is `True`. -/
def py2LeNone (r : Option ℚ) (t : ℚ) : Bool :=
  match r with
  | none => true
  | some v => decide (v ≤ t)

/-- The body of `NLPModel.AtOptimality` after the call
`(d, c, p) = self.OptimalityResiduals(x, z)` (nlp.py lines 178-182):
`d <= self.stop_d and c <= self.stop_c and p <= self.stop_p`, under
Python 2 comparison semantics for possibly-`None` residuals. -/
def AtOptimalityWith (p : NLPModel) (r : Option ℚ × Option ℚ × Option ℚ) : Bool :=
  py2LeNone r.1 p.stop_d && py2LeNone r.2.1 p.stop_c && py2LeNone r.2.2 p.stop_p

/-- `NLPModel.AtOptimality(x, z)` on the base class, whose
`OptimalityResiduals` is not overridden. -/
def AtOptimality (p : NLPModel) (x z : List ℚ) : Bool :=
  AtOptimalityWith p (OptimalityResiduals p x z)

/-- The five constraint classification lists of a model, indexed by
category (the source keeps them in the five attributes
`equalC, rangeC, lowerC, upperC, freeC`). -/
def constraintLists (p : NLPModel) : BoundClass → List ℕ
  | BoundClass.equal => p.equalC
  | BoundClass.range => p.rangeC
  | BoundClass.lower => p.lowerC
  | BoundClass.upper => p.upperC
  | BoundClass.free => p.freeC

/-- The five variable-bound classification lists of a model, indexed by
category (`fixedB, rangeB, lowerB, upperB, freeB`). -/
def boundLists (p : NLPModel) : BoundClass → List ℕ
  | BoundClass.equal => p.fixedB
  | BoundClass.range => p.rangeB
  | BoundClass.lower => p.lowerB
  | BoundClass.upper => p.upperB
  | BoundClass.free => p.freeB

theorem mem_classIndices {k : ℕ} {L U : List ℚ} {c : BoundClass} {i : ℕ} :
    i ∈ classIndices k L U c ↔ i < k ∧ classify (L.getD i 0) (U.getD i 0) = c := by
  simp [classIndices, List.mem_filter]

theorem classify_eq_equal_iff (l u : ℚ) :
    classify l u = BoundClass.equal ↔ negInfinity < l ∧ u < Infinity ∧ l = u := by
  unfold classify
  split_ifs with h1 h2 <;> simp_all

theorem classify_eq_range_iff (l u : ℚ) :
    classify l u = BoundClass.range ↔ negInfinity < l ∧ u < Infinity ∧ l ≠ u := by
  unfold classify
  split_ifs with h1 h2 <;> simp_all

theorem classify_eq_lower_iff (l u : ℚ) :
    classify l u = BoundClass.lower ↔ negInfinity < l ∧ ¬ u < Infinity := by
  unfold classify
  split_ifs with h1 h2 <;> simp_all

theorem classify_eq_upper_iff (l u : ℚ) :
    classify l u = BoundClass.upper ↔ ¬ negInfinity < l ∧ u < Infinity := by
  unfold classify
  split_ifs with h1 h2 <;> simp_all

theorem classify_eq_free_iff (l u : ℚ) :
    classify l u = BoundClass.free ↔ ¬ negInfinity < l ∧ ¬ u < Infinity := by
  unfold classify
  split_ifs with h1 h2 <;> simp_all

theorem classIndices_length_sum (k : ℕ) (L U : List ℚ) :
    (classIndices k L U BoundClass.equal).length
      + (classIndices k L U BoundClass.range).length
      + (classIndices k L U BoundClass.lower).length
      + (classIndices k L U BoundClass.upper).length
      + (classIndices k L U BoundClass.free).length = k := by
  unfold classIndices
  have h : ∀ l : List ℕ,
      (l.filter fun i => decide (classify (L.getD i 0) (U.getD i 0) = BoundClass.equal)).length
        + (l.filter fun i => decide (classify (L.getD i 0) (U.getD i 0) = BoundClass.range)).length
        + (l.filter fun i => decide (classify (L.getD i 0) (U.getD i 0) = BoundClass.lower)).length
        + (l.filter fun i => decide (classify (L.getD i 0) (U.getD i 0) = BoundClass.upper)).length
        + (l.filter fun i => decide (classify (L.getD i 0) (U.getD i 0) = BoundClass.free)).length
        = l.length := by
    intro l
    induction l with
    | nil => simp
    | cons a t ih =>
      cases ha : classify (L.getD a 0) (U.getD a 0) <;>
        simp only [List.filter_cons, ha] <;>
        simp at ih ⊢ <;> omega
  simpa using h (List.range k)

theorem classIndices_sorted (k : ℕ) (L U : List ℚ) (c : BoundClass) :
    List.Sorted (· < ·) (classIndices k L U c) :=
  (List.pairwise_lt_range k).filter _

theorem existsUnique_mem_classIndices (k : ℕ) (L U : List ℚ) (i : ℕ)
    (hik : i < k) : ∃! c : BoundClass, i ∈ classIndices k L U c := by
  refine ⟨classify (L.getD i 0) (U.getD i 0), ?_, ?_⟩
  · exact mem_classIndices.2 ⟨hik, rfl⟩
  · intro c hc
    exact ((mem_classIndices.1 hc).2).symm

theorem mem_mk_constraint (n m : ℕ) (name : String) (opts : Options)
    (c : BoundClass) (i : ℕ) :
    i ∈ constraintLists (mkNLPModel n m name opts) c ↔
      i < m ∧ classify ((mkNLPModel n m name opts).Lcon.getD i 0)
        ((mkNLPModel n m name opts).Ucon.getD i 0) = c := by
  cases c <;> exact mem_classIndices

theorem mem_mk_bound (n m : ℕ) (name : String) (opts : Options)
    (c : BoundClass) (j : ℕ) :
    j ∈ boundLists (mkNLPModel n m name opts) c ↔
      j < n ∧ classify ((mkNLPModel n m name opts).Lvar.getD j 0)
        ((mkNLPModel n m name opts).Uvar.getD j 0) = c := by
  cases c <;> exact mem_classIndices

/-- C1: the claim says `AtOptimality(x, z)` on the base class (whose
`OptimalityResiduals` returns `(None, None, None)`) returns false for every
`x, z`. The code does the opposite: Python 2 evaluates `None <= 1e-6` as
`True`, so `AtOptimality` on the base class returns `True` for every model
and every `x, z`; here evaluated at the default model with `n = 3, m = 2`
and zero vectors. -/
theorem C1_atOptimality_base_returns_true :
    (∀ (p : NLPModel) (x z : List ℚ), AtOptimality p x z = true) ∧
    AtOptimality (mkNLPModel 3 2 "Generic" noOpts) [0, 0, 0] [0, 0] = true := by
  exact ⟨fun p x z => rfl, rfl⟩

/-- C4: default construction with `n = 3, m = 2` and no keyword arguments:
`x0 = [0,0,0]`, `pi0 = [0,0]`, `Lvar = [-1e20]×3`, `Uvar = [1e20]×3`, both
constraints in `freeC`, all three variables in `freeB`, `nln = [0,1]`,
`lin = []`, `net = []`. -/
theorem C4_default_construction :
    (mkNLPModel 3 2 "Generic" noOpts).x0 = [0, 0, 0] ∧
    (mkNLPModel 3 2 "Generic" noOpts).pi0 = [0, 0] ∧
    (mkNLPModel 3 2 "Generic" noOpts).Lvar = [-(10 ^ 20), -(10 ^ 20), -(10 ^ 20)] ∧
    (mkNLPModel 3 2 "Generic" noOpts).Uvar = [10 ^ 20, 10 ^ 20, 10 ^ 20] ∧
    (mkNLPModel 3 2 "Generic" noOpts).freeC = [0, 1] ∧
    (mkNLPModel 3 2 "Generic" noOpts).nfreeC = 2 ∧
    (mkNLPModel 3 2 "Generic" noOpts).freeB = [0, 1, 2] ∧
    (mkNLPModel 3 2 "Generic" noOpts).nfreeB = 3 ∧
    (mkNLPModel 3 2 "Generic" noOpts).nln = [0, 1] ∧
    (mkNLPModel 3 2 "Generic" noOpts).lin = [] ∧
    (mkNLPModel 3 2 "Generic" noOpts).net = [] := by
  decide

/-- C6: `ResetCounters` always succeeds (it is a total function), zeroes the
seven evaluation counters whatever their prior values, and leaves every
other attribute of the model unchanged. -/
theorem C6_resetCounters_frame (p : NLPModel) :
    (ResetCounters p).feval = 0 ∧ (ResetCounters p).geval = 0 ∧
    (ResetCounters p).Heval = 0 ∧ (ResetCounters p).Hprod = 0 ∧
    (ResetCounters p).ceval = 0 ∧ (ResetCounters p).Jeval = 0 ∧
    (ResetCounters p).Jprod = 0 ∧
    (ResetCounters p).n = p.n ∧ (ResetCounters p).m = p.m ∧
    (ResetCounters p).name = p.name ∧
    (ResetCounters p).Infinity = p.Infinity ∧
    (ResetCounters p).negInfinity = p.negInfinity ∧
    (ResetCounters p).zero = p.zero ∧ (ResetCounters p).one = p.one ∧
    (ResetCounters p).x0 = p.x0 ∧ (ResetCounters p).pi0 = p.pi0 ∧
    (ResetCounters p).Lvar = p.Lvar ∧ (ResetCounters p).Uvar = p.Uvar ∧
    (ResetCounters p).Lcon = p.Lcon ∧ (ResetCounters p).Ucon = p.Ucon ∧
    (ResetCounters p).lin = p.lin ∧ (ResetCounters p).nln = p.nln ∧
    (ResetCounters p).net = p.net ∧
    (ResetCounters p).nlin = p.nlin ∧ (ResetCounters p).nnln = p.nnln ∧
    (ResetCounters p).nnet = p.nnet ∧
    (ResetCounters p).rangeC = p.rangeC ∧ (ResetCounters p).lowerC = p.lowerC ∧
    (ResetCounters p).upperC = p.upperC ∧ (ResetCounters p).equalC = p.equalC ∧
    (ResetCounters p).freeC = p.freeC ∧
    (ResetCounters p).nlowerC = p.nlowerC ∧ (ResetCounters p).nrangeC = p.nrangeC ∧
    (ResetCounters p).nupperC = p.nupperC ∧ (ResetCounters p).nequalC = p.nequalC ∧
    (ResetCounters p).nfreeC = p.nfreeC ∧
    (ResetCounters p).rangeB = p.rangeB ∧ (ResetCounters p).lowerB = p.lowerB ∧
    (ResetCounters p).upperB = p.upperB ∧ (ResetCounters p).fixedB = p.fixedB ∧
    (ResetCounters p).freeB = p.freeB ∧
    (ResetCounters p).nlowerB = p.nlowerB ∧ (ResetCounters p).nrangeB = p.nrangeB ∧
    (ResetCounters p).nupperB = p.nupperB ∧ (ResetCounters p).nfixedB = p.nfixedB ∧
    (ResetCounters p).nfreeB = p.nfreeB ∧
    (ResetCounters p).nbounds = p.nbounds ∧
    (ResetCounters p).stop_d = p.stop_d ∧ (ResetCounters p).stop_c = p.stop_c ∧
    (ResetCounters p).stop_p = p.stop_p := by
  repeat' apply And.intro
  all_goals rfl

/-- C7: after construction, `nbounds == n - nfreeB` (integer arithmetic,
as in the source's `self.nbounds = self.n - self.nfreeB`). -/
theorem C7_nbounds (n m : ℕ) (name : String) (opts : Options) :
    (mkNLPModel n m name opts).nbounds =
      (n : ℤ) - (mkNLPModel n m name opts).nfreeB := rfl

/-- C8: every classification index list built at construction is strictly
ascending, and construction is deterministic: the same inputs produce the
same model (hence the same lists). -/
theorem C8_sorted_deterministic (n m : ℕ) (name : String) (opts : Options) :
    List.Sorted (· < ·) (mkNLPModel n m name opts).equalC ∧
    List.Sorted (· < ·) (mkNLPModel n m name opts).rangeC ∧
    List.Sorted (· < ·) (mkNLPModel n m name opts).lowerC ∧
    List.Sorted (· < ·) (mkNLPModel n m name opts).upperC ∧
    List.Sorted (· < ·) (mkNLPModel n m name opts).freeC ∧
    List.Sorted (· < ·) (mkNLPModel n m name opts).fixedB ∧
    List.Sorted (· < ·) (mkNLPModel n m name opts).rangeB ∧
    List.Sorted (· < ·) (mkNLPModel n m name opts).lowerB ∧
    List.Sorted (· < ·) (mkNLPModel n m name opts).upperB ∧
    List.Sorted (· < ·) (mkNLPModel n m name opts).freeB ∧
    mkNLPModel n m name opts = mkNLPModel n m name opts := by
  refine ⟨?_, ?_, ?_, ?_, ?_, ?_, ?_, ?_, ?_, ?_, rfl⟩ <;>
    exact classIndices_sorted _ _ _ _

/-- C2: each constraint index `i` in `0..m-1` is classified by the source's
rule: both bounds strictly inside the `±1e20` sentinels puts `i` in `equalC`
exactly when `Lcon[i] == Ucon[i]` (exact equality) and in `rangeC` otherwise;
else only the lower bound finite puts it in `lowerC`; else only the upper
bound finite puts it in `upperC`; else in `freeC`. The identical rule over
`(Lvar, Uvar)` classifies each variable index into
`fixedB`/`rangeB`/`lowerB`/`upperB`/`freeB`. (Each membership is stated as
an iff whose right-hand side also carries `i < m`, resp. `j < n`.) -/
theorem C2_classification_rule (n m : ℕ) (name : String) (opts : Options)
    (i j : ℕ) :
    (i ∈ (mkNLPModel n m name opts).equalC ↔
      i < m ∧ negInfinity < (mkNLPModel n m name opts).Lcon.getD i 0 ∧
        (mkNLPModel n m name opts).Ucon.getD i 0 < Infinity ∧
        (mkNLPModel n m name opts).Lcon.getD i 0 =
          (mkNLPModel n m name opts).Ucon.getD i 0) ∧
    (i ∈ (mkNLPModel n m name opts).rangeC ↔
      i < m ∧ negInfinity < (mkNLPModel n m name opts).Lcon.getD i 0 ∧
        (mkNLPModel n m name opts).Ucon.getD i 0 < Infinity ∧
        (mkNLPModel n m name opts).Lcon.getD i 0 ≠
          (mkNLPModel n m name opts).Ucon.getD i 0) ∧
    (i ∈ (mkNLPModel n m name opts).lowerC ↔
      i < m ∧ negInfinity < (mkNLPModel n m name opts).Lcon.getD i 0 ∧
        ¬ (mkNLPModel n m name opts).Ucon.getD i 0 < Infinity) ∧
    (i ∈ (mkNLPModel n m name opts).upperC ↔
      i < m ∧ ¬ negInfinity < (mkNLPModel n m name opts).Lcon.getD i 0 ∧
        (mkNLPModel n m name opts).Ucon.getD i 0 < Infinity) ∧
    (i ∈ (mkNLPModel n m name opts).freeC ↔
      i < m ∧ ¬ negInfinity < (mkNLPModel n m name opts).Lcon.getD i 0 ∧
        ¬ (mkNLPModel n m name opts).Ucon.getD i 0 < Infinity) ∧
    (j ∈ (mkNLPModel n m name opts).fixedB ↔
      j < n ∧ negInfinity < (mkNLPModel n m name opts).Lvar.getD j 0 ∧
        (mkNLPModel n m name opts).Uvar.getD j 0 < Infinity ∧
        (mkNLPModel n m name opts).Lvar.getD j 0 =
          (mkNLPModel n m name opts).Uvar.getD j 0) ∧
    (j ∈ (mkNLPModel n m name opts).rangeB ↔
      j < n ∧ negInfinity < (mkNLPModel n m name opts).Lvar.getD j 0 ∧
        (mkNLPModel n m name opts).Uvar.getD j 0 < Infinity ∧
        (mkNLPModel n m name opts).Lvar.getD j 0 ≠
          (mkNLPModel n m name opts).Uvar.getD j 0) ∧
    (j ∈ (mkNLPModel n m name opts).lowerB ↔
      j < n ∧ negInfinity < (mkNLPModel n m name opts).Lvar.getD j 0 ∧
        ¬ (mkNLPModel n m name opts).Uvar.getD j 0 < Infinity) ∧
    (j ∈ (mkNLPModel n m name opts).upperB ↔
      j < n ∧ ¬ negInfinity < (mkNLPModel n m name opts).Lvar.getD j 0 ∧
        (mkNLPModel n m name opts).Uvar.getD j 0 < Infinity) ∧
    (j ∈ (mkNLPModel n m name opts).freeB ↔
      j < n ∧ ¬ negInfinity < (mkNLPModel n m name opts).Lvar.getD j 0 ∧
        ¬ (mkNLPModel n m name opts).Uvar.getD j 0 < Infinity) := by
  refine ⟨?_, ?_, ?_, ?_, ?_, ?_, ?_, ?_, ?_, ?_⟩
  · exact (mem_mk_constraint n m name opts BoundClass.equal i).trans
      (and_congr_right fun _ => classify_eq_equal_iff _ _)
  · exact (mem_mk_constraint n m name opts BoundClass.range i).trans
      (and_congr_right fun _ => classify_eq_range_iff _ _)
  · exact (mem_mk_constraint n m name opts BoundClass.lower i).trans
      (and_congr_right fun _ => classify_eq_lower_iff _ _)
  · exact (mem_mk_constraint n m name opts BoundClass.upper i).trans
      (and_congr_right fun _ => classify_eq_upper_iff _ _)
  · exact (mem_mk_constraint n m name opts BoundClass.free i).trans
      (and_congr_right fun _ => classify_eq_free_iff _ _)
  · exact (mem_mk_bound n m name opts BoundClass.equal j).trans
      (and_congr_right fun _ => classify_eq_equal_iff _ _)
  · exact (mem_mk_bound n m name opts BoundClass.range j).trans
      (and_congr_right fun _ => classify_eq_range_iff _ _)
  · exact (mem_mk_bound n m name opts BoundClass.lower j).trans
      (and_congr_right fun _ => classify_eq_lower_iff _ _)
  · exact (mem_mk_bound n m name opts BoundClass.upper j).trans
      (and_congr_right fun _ => classify_eq_upper_iff _ _)
  · exact (mem_mk_bound n m name opts BoundClass.free j).trans
      (and_congr_right fun _ => classify_eq_free_iff _ _)

/-- C3: the five constraint categories partition `0..m-1` (every such index
lies in exactly one of the five lists) and their counts sum to `m`; the five
variable-bound categories partition `0..n-1` and their counts sum to `n`. -/
theorem C3_partition (n m : ℕ) (name : String) (opts : Options)
    (i j : ℕ) (hi : i < m) (hj : j < n) :
    (∃! c : BoundClass, i ∈ constraintLists (mkNLPModel n m name opts) c) ∧
    (mkNLPModel n m name opts).nequalC + (mkNLPModel n m name opts).nrangeC
      + (mkNLPModel n m name opts).nlowerC + (mkNLPModel n m name opts).nupperC
      + (mkNLPModel n m name opts).nfreeC = m ∧
    (∃! c : BoundClass, j ∈ boundLists (mkNLPModel n m name opts) c) ∧
    (mkNLPModel n m name opts).nfixedB + (mkNLPModel n m name opts).nrangeB
      + (mkNLPModel n m name opts).nlowerB + (mkNLPModel n m name opts).nupperB
      + (mkNLPModel n m name opts).nfreeB = n := by
  refine ⟨?_, ?_, ?_, ?_⟩
  · refine ⟨classify ((mkNLPModel n m name opts).Lcon.getD i 0)
      ((mkNLPModel n m name opts).Ucon.getD i 0), ?_, ?_⟩
    · exact (mem_mk_constraint n m name opts _ i).2 ⟨hi, rfl⟩
    · intro c hc
      exact ((mem_mk_constraint n m name opts c i).1 hc).2.symm
  · exact classIndices_length_sum m
      (opts.Lcon.getD (List.replicate m negInfinity))
      (opts.Ucon.getD (List.replicate m Infinity))
  · refine ⟨classify ((mkNLPModel n m name opts).Lvar.getD j 0)
      ((mkNLPModel n m name opts).Uvar.getD j 0), ?_, ?_⟩
    · exact (mem_mk_bound n m name opts _ j).2 ⟨hj, rfl⟩
    · intro c hc
      exact ((mem_mk_bound n m name opts c j).1 hc).2.symm
  · exact classIndices_length_sum n
      (opts.Lvar.getD (List.replicate n negInfinity))
      (opts.Uvar.getD (List.replicate n Infinity))

/-- C5: when `OptimalityResiduals` yields three defined residuals
`(d, c, p)`, `AtOptimality`'s test returns true iff `d <= stop_d` and
`c <= stop_c` and `p <= stop_p`; each default tolerance is `1e-6`; a
residual exactly equal to its tolerance yields true, and one exceeding its
tolerance by any positive `ε` yields false. -/
theorem C5_atOptimality_defined_residuals (n m : ℕ) (name : String)
    (opts : Options) (d c p ε : ℚ) (hε : 0 < ε) :
    (AtOptimalityWith (mkNLPModel n m name opts) (some d, some c, some p) = true ↔
      d ≤ (mkNLPModel n m name opts).stop_d ∧
        c ≤ (mkNLPModel n m name opts).stop_c ∧
        p ≤ (mkNLPModel n m name opts).stop_p) ∧
    (mkNLPModel n m name opts).stop_d = 1 / 1000000 ∧
    (mkNLPModel n m name opts).stop_c = 1 / 1000000 ∧
    (mkNLPModel n m name opts).stop_p = 1 / 1000000 ∧
    AtOptimalityWith (mkNLPModel n m name opts)
      (some ((mkNLPModel n m name opts).stop_d),
        some ((mkNLPModel n m name opts).stop_c),
        some ((mkNLPModel n m name opts).stop_p)) = true ∧
    AtOptimalityWith (mkNLPModel n m name opts)
      (some ((mkNLPModel n m name opts).stop_d + ε), some c, some p) = false ∧
    AtOptimalityWith (mkNLPModel n m name opts)
      (some d, some ((mkNLPModel n m name opts).stop_c + ε), some p) = false ∧
    AtOptimalityWith (mkNLPModel n m name opts)
      (some d, some c, some ((mkNLPModel n m name opts).stop_p + ε)) = false := by
  have hd : ¬ ((mkNLPModel n m name opts).stop_d + ε ≤
      (mkNLPModel n m name opts).stop_d) := by linarith
  have hc : ¬ ((mkNLPModel n m name opts).stop_c + ε ≤
      (mkNLPModel n m name opts).stop_c) := by linarith
  have hp : ¬ ((mkNLPModel n m name opts).stop_p + ε ≤
      (mkNLPModel n m name opts).stop_p) := by linarith
  refine ⟨?_, rfl, rfl, rfl, ?_, ?_, ?_, ?_⟩
  · simp [AtOptimalityWith, py2LeNone, and_assoc]
  · simp [AtOptimalityWith, py2LeNone]
  · simp [AtOptimalityWith, py2LeNone, hd]
  · simp [AtOptimalityWith, py2LeNone, hc]
  · simp [AtOptimalityWith, py2LeNone, hp]

/-- C5 witness: the theorem instantiated at the default model with
`n = 3, m = 2`, residuals `d = c = p = 0` and `ε = 1`. -/
theorem C5_atOptimality_defined_residuals_witness :
    (AtOptimalityWith (mkNLPModel 3 2 "Generic" noOpts)
        (some 0, some 0, some 0) = true ↔
      (0 : ℚ) ≤ (mkNLPModel 3 2 "Generic" noOpts).stop_d ∧
        (0 : ℚ) ≤ (mkNLPModel 3 2 "Generic" noOpts).stop_c ∧
        (0 : ℚ) ≤ (mkNLPModel 3 2 "Generic" noOpts).stop_p) ∧
    (mkNLPModel 3 2 "Generic" noOpts).stop_d = 1 / 1000000 ∧
    (mkNLPModel 3 2 "Generic" noOpts).stop_c = 1 / 1000000 ∧
    (mkNLPModel 3 2 "Generic" noOpts).stop_p = 1 / 1000000 ∧
    AtOptimalityWith (mkNLPModel 3 2 "Generic" noOpts)
      (some ((mkNLPModel 3 2 "Generic" noOpts).stop_d),
        some ((mkNLPModel 3 2 "Generic" noOpts).stop_c),
        some ((mkNLPModel 3 2 "Generic" noOpts).stop_p)) = true ∧
    AtOptimalityWith (mkNLPModel 3 2 "Generic" noOpts)
      (some ((mkNLPModel 3 2 "Generic" noOpts).stop_d + 1), some 0, some 0) = false ∧
    AtOptimalityWith (mkNLPModel 3 2 "Generic" noOpts)
      (some 0, some ((mkNLPModel 3 2 "Generic" noOpts).stop_c + 1), some 0) = false ∧
    AtOptimalityWith (mkNLPModel 3 2 "Generic" noOpts)
      (some 0, some 0, some ((mkNLPModel 3 2 "Generic" noOpts).stop_p + 1)) = false :=
  C5_atOptimality_defined_residuals 3 2 "Generic" noOpts 0 0 0 1 (by norm_num)

/-- C9: if both bounds at an index equal the `+1e20` sentinel the index is
classified lower-only (the finiteness test precedes the equality test); if
both equal `-1e20` it is classified upper-only; in neither case does it
reach the equality category. Same for variable bounds. -/
theorem C9_sentinel_equal_bounds (n m : ℕ) (name : String) (opts : Options)
    (i1 i2 j1 j2 : ℕ) (hi1 : i1 < m) (hi2 : i2 < m) (hj1 : j1 < n) (hj2 : j2 < n)
    (h1L : (mkNLPModel n m name opts).Lcon.getD i1 0 = Infinity)
    (h1U : (mkNLPModel n m name opts).Ucon.getD i1 0 = Infinity)
    (h2L : (mkNLPModel n m name opts).Lcon.getD i2 0 = negInfinity)
    (h2U : (mkNLPModel n m name opts).Ucon.getD i2 0 = negInfinity)
    (h3L : (mkNLPModel n m name opts).Lvar.getD j1 0 = Infinity)
    (h3U : (mkNLPModel n m name opts).Uvar.getD j1 0 = Infinity)
    (h4L : (mkNLPModel n m name opts).Lvar.getD j2 0 = negInfinity)
    (h4U : (mkNLPModel n m name opts).Uvar.getD j2 0 = negInfinity) :
    (i1 ∈ (mkNLPModel n m name opts).lowerC ∧
      i1 ∉ (mkNLPModel n m name opts).equalC) ∧
    (i2 ∈ (mkNLPModel n m name opts).upperC ∧
      i2 ∉ (mkNLPModel n m name opts).equalC) ∧
    (j1 ∈ (mkNLPModel n m name opts).lowerB ∧
      j1 ∉ (mkNLPModel n m name opts).fixedB) ∧
    (j2 ∈ (mkNLPModel n m name opts).upperB ∧
      j2 ∉ (mkNLPModel n m name opts).fixedB) := by
  have hInf : negInfinity < Infinity := by norm_num [negInfinity, Infinity]
  refine ⟨⟨?_, ?_⟩, ⟨?_, ?_⟩, ⟨?_, ?_⟩, ⟨?_, ?_⟩⟩
  · refine (mem_mk_constraint n m name opts BoundClass.lower i1).2 ⟨hi1, ?_⟩
    rw [h1L, h1U, classify_eq_lower_iff]
    exact ⟨hInf, lt_irrefl _⟩
  · intro hmem
    have h := ((mem_mk_constraint n m name opts BoundClass.equal i1).1 hmem).2
    rw [h1L, h1U, classify_eq_equal_iff] at h
    exact absurd h.2.1 (lt_irrefl _)
  · refine (mem_mk_constraint n m name opts BoundClass.upper i2).2 ⟨hi2, ?_⟩
    rw [h2L, h2U, classify_eq_upper_iff]
    exact ⟨lt_irrefl _, hInf⟩
  · intro hmem
    have h := ((mem_mk_constraint n m name opts BoundClass.equal i2).1 hmem).2
    rw [h2L, h2U, classify_eq_equal_iff] at h
    exact absurd h.1 (lt_irrefl _)
  · refine (mem_mk_bound n m name opts BoundClass.lower j1).2 ⟨hj1, ?_⟩
    rw [h3L, h3U, classify_eq_lower_iff]
    exact ⟨hInf, lt_irrefl _⟩
  · intro hmem
    have h := ((mem_mk_bound n m name opts BoundClass.equal j1).1 hmem).2
    rw [h3L, h3U, classify_eq_equal_iff] at h
    exact absurd h.2.1 (lt_irrefl _)
  · refine (mem_mk_bound n m name opts BoundClass.upper j2).2 ⟨hj2, ?_⟩
    rw [h4L, h4U, classify_eq_upper_iff]
    exact ⟨lt_irrefl _, hInf⟩
  · intro hmem
    have h := ((mem_mk_bound n m name opts BoundClass.equal j2).1 hmem).2
    rw [h4L, h4U, classify_eq_equal_iff] at h
    exact absurd h.1 (lt_irrefl _)

/-- Keyword arguments whose bound vectors place the `±1e20` sentinels as
equal lower and upper bounds: constraint 0 and variable 0 have both bounds
`+1e20`, constraint 1 and variable 1 have both bounds `-1e20`. -/
def sentinelOpts : Options :=
  ⟨none, none, some [Infinity, negInfinity], some [Infinity, negInfinity],
    some [Infinity, negInfinity], some [Infinity, negInfinity]⟩

/-- C9 witness: the theorem instantiated at `n = m = 2` with
`sentinelOpts`. -/
theorem C9_sentinel_equal_bounds_witness :
    (0 ∈ (mkNLPModel 2 2 "Generic" sentinelOpts).lowerC ∧
      0 ∉ (mkNLPModel 2 2 "Generic" sentinelOpts).equalC) ∧
    (1 ∈ (mkNLPModel 2 2 "Generic" sentinelOpts).upperC ∧
      1 ∉ (mkNLPModel 2 2 "Generic" sentinelOpts).equalC) ∧
    (0 ∈ (mkNLPModel 2 2 "Generic" sentinelOpts).lowerB ∧
      0 ∉ (mkNLPModel 2 2 "Generic" sentinelOpts).fixedB) ∧
    (1 ∈ (mkNLPModel 2 2 "Generic" sentinelOpts).upperB ∧
      1 ∉ (mkNLPModel 2 2 "Generic" sentinelOpts).fixedB) :=
  C9_sentinel_equal_bounds 2 2 "Generic" sentinelOpts 0 1 0 1
    (by decide) (by decide) (by decide) (by decide)
    rfl rfl rfl rfl rfl rfl rfl rfl

/-- C10: construction is total even when the documented precondition
`Lcon[i] <= Ucon[i]` (resp. `Lvar[i] <= Uvar[i]`) is violated: an inverted
pair with both values strictly between `-1e20` and `1e20` (hence unequal)
is classified as a range constraint, resp. range bound. -/
theorem C10_inverted_bounds_range (n m : ℕ) (name : String) (opts : Options)
    (i j : ℕ) (hi : i < m) (hj : j < n)
    (h1 : negInfinity < (mkNLPModel n m name opts).Lcon.getD i 0)
    (h2 : (mkNLPModel n m name opts).Lcon.getD i 0 < Infinity)
    (h3 : negInfinity < (mkNLPModel n m name opts).Ucon.getD i 0)
    (h4 : (mkNLPModel n m name opts).Ucon.getD i 0 < Infinity)
    (h5 : (mkNLPModel n m name opts).Ucon.getD i 0 <
      (mkNLPModel n m name opts).Lcon.getD i 0)
    (g1 : negInfinity < (mkNLPModel n m name opts).Lvar.getD j 0)
    (g2 : (mkNLPModel n m name opts).Lvar.getD j 0 < Infinity)
    (g3 : negInfinity < (mkNLPModel n m name opts).Uvar.getD j 0)
    (g4 : (mkNLPModel n m name opts).Uvar.getD j 0 < Infinity)
    (g5 : (mkNLPModel n m name opts).Uvar.getD j 0 <
      (mkNLPModel n m name opts).Lvar.getD j 0) :
    i ∈ (mkNLPModel n m name opts).rangeC ∧
      j ∈ (mkNLPModel n m name opts).rangeB := by
  constructor
  · refine (mem_mk_constraint n m name opts BoundClass.range i).2 ⟨hi, ?_⟩
    rw [classify_eq_range_iff]
    exact ⟨h1, h4, ne_of_gt h5⟩
  · refine (mem_mk_bound n m name opts BoundClass.range j).2 ⟨hj, ?_⟩
    rw [classify_eq_range_iff]
    exact ⟨g1, g4, ne_of_gt g5⟩

/-- Keyword arguments with inverted bound pairs: variable bounds
`Lvar = [3] > Uvar = [2]` and constraint bounds `Lcon = [5] > Ucon = [1]`,
all strictly inside the `±1e20` sentinels. -/
def invertedOpts : Options :=
  ⟨none, none, some [3], some [2], some [5], some [1]⟩

/-- C10 witness: the theorem instantiated at `n = m = 1` with
`invertedOpts`. -/
theorem C10_inverted_bounds_range_witness :
    0 ∈ (mkNLPModel 1 1 "Generic" invertedOpts).rangeC ∧
      0 ∈ (mkNLPModel 1 1 "Generic" invertedOpts).rangeB :=
  C10_inverted_bounds_range 1 1 "Generic" invertedOpts 0 0
    (by decide) (by decide) (by decide) (by decide) (by decide)
    (by decide) (by decide) (by decide) (by decide) (by decide)
    (by decide) (by decide)

/-- C3 witness: the theorem instantiated at `n = m = 1` with no keyword
arguments, at indices `i = j = 0`. -/
theorem C3_partition_witness :
    (∃! c : BoundClass, 0 ∈ constraintLists (mkNLPModel 1 1 "Generic" noOpts) c) ∧
    (mkNLPModel 1 1 "Generic" noOpts).nequalC
      + (mkNLPModel 1 1 "Generic" noOpts).nrangeC
      + (mkNLPModel 1 1 "Generic" noOpts).nlowerC
      + (mkNLPModel 1 1 "Generic" noOpts).nupperC
      + (mkNLPModel 1 1 "Generic" noOpts).nfreeC = 1 ∧
    (∃! c : BoundClass, 0 ∈ boundLists (mkNLPModel 1 1 "Generic" noOpts) c) ∧
    (mkNLPModel 1 1 "Generic" noOpts).nfixedB
      + (mkNLPModel 1 1 "Generic" noOpts).nrangeB
      + (mkNLPModel 1 1 "Generic" noOpts).nlowerB
      + (mkNLPModel 1 1 "Generic" noOpts).nupperB
      + (mkNLPModel 1 1 "Generic" noOpts).nfreeB = 1 :=
  C3_partition 1 1 "Generic" noOpts 0 0 (by decide) (by decide)
